import Mathlib

/-!
Shallow embedding of the ARGO Float Explorer dashboard
(`src/frontend/app.py`): the data-access layer (`get_summary`,
`get_profiles`), the chat intent dispatcher (the if/elif chain over the
normalized query string), and the rule-6 comparison matcher
(`re.search` over the pattern `(temperature|salinity)\s*([<>]=?)\s*([0-9]+\.?[0-9]*)`).

Strings are modelled as `List Char`; the SQLite store as a list of rows;
SQL numerics as `Rat`; dates as `Int` (ISO dates compare like their
numeric encodings); NULL as `Option`.
-/

namespace Argo

/-- ASCII whitespace set stripped by Python `str.strip()` and matched by
the regex class `\s` (for the ASCII inputs the dispatcher handles). -/
def isSpaceC (c : Char) : Bool :=
  c = ' ' || c = '\t' || c = '\n' || c = '\r' || c = '\x0b' || c = '\x0c'

/-- ASCII case folding, as Python `str.lower()` acts on ASCII characters. -/
def lowerC (c : Char) : Char :=
  match c with
  | 'A' => 'a' | 'B' => 'b' | 'C' => 'c' | 'D' => 'd' | 'E' => 'e'
  | 'F' => 'f' | 'G' => 'g' | 'H' => 'h' | 'I' => 'i' | 'J' => 'j'
  | 'K' => 'k' | 'L' => 'l' | 'M' => 'm' | 'N' => 'n' | 'O' => 'o'
  | 'P' => 'p' | 'Q' => 'q' | 'R' => 'r' | 'S' => 's' | 'T' => 't'
  | 'U' => 'u' | 'V' => 'v' | 'W' => 'w' | 'X' => 'x' | 'Y' => 'y'
  | 'Z' => 'z' | c => c

/-- Python `str.strip()`: drop leading and trailing whitespace. -/
def trimL (l : List Char) : List Char :=
  ((l.dropWhile isSpaceC).reverse.dropWhile isSpaceC).reverse

/-- `query.strip().lower()` at app.py:83. -/
def normalize (l : List Char) : List Char :=
  (trimL l).map lowerC

/-- Python substring containment `needle in hay`. -/
def hasSub (needle : String) (hay : List Char) : Bool :=
  decide (needle.toList <:+: hay)

/-- One row of the `measurements` table. -/
structure Measurement where
  float_id : String
  profile_date : Option Int
  depth : Rat
  temperature : Option Rat
  salinity : Option Rat
  mld : Option Rat
deriving DecidableEq

/-- The measurement store (contents of the SQLite table). -/
abbrev Store := List Measurement

/-- Projection selected by `get_profiles` and the rule-6 query. -/
structure ProfileRow where
  profile_date : Option Int
  depth : Rat
  temperature : Option Rat
  salinity : Option Rat
  mld : Option Rat
deriving DecidableEq

def projRow (r : Measurement) : ProfileRow :=
  ⟨r.profile_date, r.depth, r.temperature, r.salinity, r.mld⟩

/-- SQLite ascending order on a nullable column: NULL sorts first. -/
def oLt (a b : Option Int) : Bool :=
  match a, b with
  | none, none => false
  | none, some _ => true
  | some _, none => false
  | some x, some y => decide (x < y)

/-- `ORDER BY profile_date, depth` as a total Boolean preorder on keys. -/
def keyLe (a b : Option Int × Rat) : Bool :=
  oLt a.1 b.1 || (a.1 == b.1 && decide (a.2 ≤ b.2))

def rowLe (a b : Measurement) : Bool :=
  keyLe (a.profile_date, a.depth) (b.profile_date, b.depth)

def projLe (a b : ProfileRow) : Bool :=
  keyLe (a.profile_date, a.depth) (b.profile_date, b.depth)

/-- `get_summary` (app.py:8-16):
`SELECT float_id, COUNT(*) AS n FROM measurements GROUP BY float_id`. -/
def get_summary (s : Store) : List (String × Nat) :=
  ((s.map Measurement.float_id).dedup).map
    (fun f => (f, (s.filter (fun r => r.float_id == f)).length))

/-- `get_profiles` (app.py:18-30): rows of one float, ordered by
`(profile_date, depth)` ascending, truncated at `max_rows`. -/
def get_profiles (s : Store) (fid : String) (max_rows : Nat) : List ProfileRow :=
  ((((s.filter (fun r => r.float_id == fid)).mergeSort rowLe).take max_rows).map projRow)

/-- `get_profiles` with its default `max_rows=5000`. -/
def get_profilesDefault (s : Store) (fid : String) : List ProfileRow :=
  get_profiles s fid 5000

/-- The non-null profile dates of one float, with multiplicity
(the column `profile_date` of `SELECT profile_date ... WHERE float_id=?
AND profile_date IS NOT NULL`). -/
def floatDates (s : Store) (fid : String) : List Int :=
  (s.filter (fun r => r.float_id == fid)).filterMap Measurement.profile_date

/-- Rule-1 query (app.py:90-98):
`SELECT COUNT(DISTINCT profile_date) ... WHERE float_id=?`.
SQL `COUNT(DISTINCT c)` ignores NULLs and counts each value once. -/
def countProfilesQ (s : Store) (fid : String) : Nat :=
  (floatDates s fid).dedup.length

/-- Rule-2 query (app.py:103-114): non-null dates of the float, grouped
(deduplicated), ordered descending, `LIMIT 1`. -/
def latestProfileQ (s : Store) (fid : String) : Option Int :=
  (((floatDates s fid).dedup).mergeSort (fun a b => decide (b ≤ a))).head?

def isDigitC (c : Char) : Bool :=
  decide ('0' ≤ c) && decide (c ≤ '9')

/-- Match a literal at the head of the input; return the remaining input. -/
def stripLit (lit l : List Char) : Option (List Char) :=
  match lit, l with
  | [], rest => some rest
  | _ :: _, [] => none
  | p :: ps, c :: cs => if c = p then stripLit ps cs else none

/-- Match the tail `[0-9]+\.?[0-9]*` of the rule-6 pattern at the head of
the input, greedily, returning the matched text (the third capture group).
`[0-9]+` takes the maximal digit run, `\.?` takes a dot when present,
`[0-9]*` takes the following maximal digit run. -/
def matchNum (l : List Char) : Option (List Char) :=
  let ds := l.takeWhile isDigitC
  if ds.isEmpty then none
  else
    match l.dropWhile isDigitC with
    | '.' :: r2 => some (ds ++ '.' :: r2.takeWhile isDigitC)
    | _ => some ds

/-- After capture group 1 has matched `col`, match
`\s*([<>]=?)\s*([0-9]+\.?[0-9]*)` on the rest, returning the three
capture-group texts (column, operator, threshold). `=?` is greedy; when
it consumes a `=` and the digits then fail, the backtracked alternative
(not consuming `=`) also fails on the `=`, so committing is faithful to
`re.search`. -/
def matchOpNum (col rest : List Char) : Option (List Char × List Char × List Char) :=
  match rest.dropWhile isSpaceC with
  | [] => none
  | c :: r2 =>
    if c = '<' || c = '>' then
      match r2 with
      | '=' :: r2b =>
        match matchNum (r2b.dropWhile isSpaceC) with
        | some v => some (col, [c, '='], v)
        | none => none
      | _ =>
        match matchNum (r2.dropWhile isSpaceC) with
        | some v => some (col, [c], v)
        | none => none
    else none

def tempLit : List Char := "temperature".toList
def salLit : List Char := "salinity".toList

/-- Try the rule-6 pattern anchored at the head of the input: capture
group 1 is the alternation `(temperature|salinity)` (the two literals
start with distinct characters, so at most one alternative can match at
a given position). -/
def matchAt (l : List Char) : Option (List Char × List Char × List Char) :=
  match stripLit tempLit l with
  | some rest => matchOpNum tempLit rest
  | none =>
    match stripLit salLit l with
    | some rest => matchOpNum salLit rest
    | none => none

/-- `re.search(r"(temperature|salinity)\s*([<>]=?)\s*([0-9]+\.?[0-9]*)", q)`
(app.py:174): try the pattern at each start position left to right and
return the capture groups of the leftmost match. -/
def reSearch : List Char → Option (List Char × List Char × List Char)
  | [] => none
  | c :: cs =>
    match matchAt (c :: cs) with
    | some m => some m
    | none => reSearch cs

/-- Numeric value of a digit run, as SQLite receives the bound
`float(val)` parameter. -/
def digitsToNat (l : List Char) : Nat :=
  l.foldl (fun n c => 10 * n + (c.toNat - 48)) 0

/-- Python `float(val)` on a string matched by `[0-9]+\.?[0-9]*`,
modelled exactly as a rational. -/
def parseDec (v : List Char) : Rat :=
  let ip := v.takeWhile isDigitC
  match v.dropWhile isDigitC with
  | '.' :: fs => (digitsToNat ip : Rat) + (digitsToNat fs : Rat) / ((10 : Rat) ^ fs.length)
  | _ => (digitsToNat ip : Rat)

/-- Value of the column named by capture group 1 in a row; any name
outside the whitelist selects nothing. -/
def colVal (r : Measurement) (c : List Char) : Option Rat :=
  if c = tempLit then r.temperature
  else if c = salLit then r.salinity
  else none

/-- SQL comparison `col op threshold`: NULL compares as not-true. -/
def opHolds (o : List Char) (x : Option Rat) (t : Rat) : Bool :=
  match x with
  | none => false
  | some v =>
    if o = ['<'] then decide (v < t)
    else if o = ['<', '='] then decide (v ≤ t)
    else if o = ['>'] then decide (v > t)
    else if o = ['>', '='] then decide (v ≥ t)
    else false

/-- Rule-6 query (app.py:177-185): `SELECT profile_date, depth, {col}
FROM measurements WHERE float_id=? AND {col} {op} ? ORDER BY
profile_date, depth LIMIT 500` with the threshold bound as a float. -/
def filteredQ (s : Store) (fid : String) (c o v : List Char) : List ProfileRow :=
  ((((s.filter (fun r => r.float_id == fid && opHolds o (colVal r c) (parseDec v))).mergeSort
      rowLe).take 500).map projRow)

/-- One call of the dispatcher's `reply` function, with the payload the
message interpolates. `countProfiles n` is "This float has n profiles.";
`latestDate d` is "The most recent profile date is d."; `noProfileDates`
is "No profile dates found."; `topTemperature`, `minSalinity` and
`mldSummary` are the fixed labels of rules 3-5; `filteredRows c o v rows`
is "Showing rows where c o v:" together with the displayed rows;
`usageHint` is the rule-6 format hint; `unrecognized` the fallback help. -/
inductive BotReply where
  | countProfiles (n : Nat)
  | latestDate (d : Int)
  | noProfileDates
  | topTemperature
  | minSalinity
  | mldSummary
  | filteredRows (c o v : List Char) (rows : List ProfileRow)
  | usageHint
  | unrecognized
deriving DecidableEq

/-- Rule-1 condition (app.py:89). -/
def cond1 (q : List Char) : Bool :=
  hasSub "how many profiles" q || hasSub "count profiles" q

/-- Rule-2 condition (app.py:102). -/
def cond2 (q : List Char) : Bool :=
  hasSub "latest profile" q || hasSub "last profile" q

/-- Rule-3 condition (app.py:121). -/
def cond3 (q : List Char) : Bool :=
  hasSub "max temperature" q || hasSub "highest temperature" q

/-- Rule-4 condition (app.py:137). -/
def cond4 (q : List Char) : Bool :=
  hasSub "min salinity" q || hasSub "lowest salinity" q

/-- Rule-5 condition (app.py:153). -/
def cond5 (q : List Char) : Bool :=
  hasSub "mld" q || hasSub "mixed layer" q

/-- Rule-6 condition (app.py:172). -/
def cond6 (q : List Char) : Bool :=
  hasSub "where" q && (hasSub ">" q || hasSub "<" q)

/-- Rule-2 handler body (app.py:115-118). -/
def latestReply (s : Store) (fid : String) : List BotReply :=
  match latestProfileQ s fid with
  | some d => [BotReply.latestDate d]
  | none => [BotReply.noProfileDates]

/-- Rule-6 handler body (app.py:173-189). -/
def rule6Reply (s : Store) (fid : String) (q : List Char) : List BotReply :=
  match reSearch q with
  | some (c, o, v) => [BotReply.filteredRows c o v (filteredQ s fid c o v)]
  | none => [BotReply.usageHint]

/-- The dispatcher's if/elif chain (app.py:89-194) on the already
normalized query string, returning the sequence of `reply` calls made. -/
def dispatch (s : Store) (fid : String) (q : List Char) : List BotReply :=
  if cond1 q then [BotReply.countProfiles (countProfilesQ s fid)]
  else if cond2 q then latestReply s fid
  else if cond3 q then [BotReply.topTemperature]
  else if cond4 q then [BotReply.minSalinity]
  else if cond5 q then [BotReply.mldSummary]
  else if cond6 q then rule6Reply s fid q
  else [BotReply.unrecognized]

/-- The dispatcher on the raw query text: `q_lower = query.strip().lower()`
(app.py:83) followed by the chain. -/
def dispatchRaw (s : Store) (fid : String) (raw : List Char) : List BotReply :=
  dispatch s fid (normalize raw)

/-- Spec-side formulation of the ordered rule table: the index (0-based)
of the earliest rule whose keyword condition the string satisfies, 6 when
none does. -/
def specRuleIdx (q : List Char) : Nat :=
  List.findIdx (fun b => b) [cond1 q, cond2 q, cond3 q, cond4 q, cond5 q, cond6 q]

/-- Spec-side formulation of the rule handlers, indexed by rule. -/
def specRunRule (s : Store) (fid : String) (q : List Char) : Nat → List BotReply
  | 0 => [BotReply.countProfiles (countProfilesQ s fid)]
  | 1 => latestReply s fid
  | 2 => [BotReply.topTemperature]
  | 3 => [BotReply.minSalinity]
  | 4 => [BotReply.mldSummary]
  | 5 => rule6Reply s fid q
  | _ => [BotReply.unrecognized]

/-- The shape matched by the third capture group of the code's rule-6
pattern: `[0-9]+\.?[0-9]*` (an unsigned decimal numeral, optionally with
a dot and further digits; no sign). -/
def numShape (v : List Char) : Bool :=
  match v with
  | [] => false
  | c :: _ =>
    isDigitC c &&
      (match v.dropWhile isDigitC with
       | [] => true
       | '.' :: r => r.all isDigitC
       | _ => false)

/-- The operations this system performs against the store: the two
data-access reads and one dispatcher interaction. -/
inductive Op where
  | summary
  | profiles (fid : String) (maxRows : Nat)
  | chat (fid : String) (raw : List Char)

/-- The observable output of one operation. -/
inductive OutVal where
  | table (t : List (String × Nat))
  | rows (t : List ProfileRow)
  | replies (t : List BotReply)
deriving DecidableEq

/-- Execute one operation: its output, and the store it leaves behind.
Every operation is a single SELECT (or a chain of SELECTs); none writes. -/
def runOp (op : Op) (s : Store) : OutVal × Store :=
  match op with
  | Op.summary => (OutVal.table (get_summary s), s)
  | Op.profiles fid n => (OutVal.rows (get_profiles s fid n), s)
  | Op.chat fid raw => (OutVal.replies (dispatchRaw s fid raw), s)

/-- The store after a sequence of operations of this system. -/
def runTrace (ops : List Op) (s : Store) : Store :=
  ops.foldl (fun st op => (runOp op st).2) s

/-- Sample store: one float with profile dates
{2021-01-01, 2021-01-01, 2021-02-01} duplicated across depth rows. -/
def exStore : Store :=
  [⟨"f1", some 20210101, 10, some 20, some 35, none⟩,
   ⟨"f1", some 20210101, 20, some 19, some 35, none⟩,
   ⟨"f1", some 20210201, 10, some 21, some 36, none⟩]

/-- Sample store: one float all of whose rows have a NULL profile date. -/
def nullStore : Store :=
  [⟨"f1", none, 10, some 20, some 35, none⟩,
   ⟨"f1", none, 20, some 19, some 34, none⟩]

theorem latestReply_length (s : Store) (fid : String) :
    (latestReply s fid).length = 1 := by
  unfold latestReply
  cases latestProfileQ s fid <;> rfl

theorem rule6Reply_length (s : Store) (fid : String) (q : List Char) :
    (rule6Reply s fid q).length = 1 := by
  unfold rule6Reply
  rcases reSearch q with _ | ⟨c, o, v⟩ <;> rfl

/-- C10: for every normalized query string the dispatcher makes exactly one
`reply` call — each of its seven outcomes (the five query rules, the rule-6
usage hint, and the unrecognized fallback) produces exactly one bot message. -/
theorem dispatch_replies_exactly_once (s : Store) (fid : String) (q : List Char) :
    (dispatch s fid q).length = 1 := by
  unfold dispatch
  repeat' split
  all_goals first
    | rfl
    | exact latestReply_length s fid
    | exact rule6Reply_length s fid q

/-- C7: every operation of this system (the two data-access reads and the
chat dispatcher) is a read: it leaves the store exactly as it found it,
so along any sequence of operations the store is constant, and
`get_summary`/`get_profiles` evaluated after any such sequence return what
they returned at the start — memoization by argument tuple is sound. -/
theorem ops_read_only :
    (∀ op s, (runOp op s).2 = s) ∧
      (∀ ops s, runTrace ops s = s) ∧
        (∀ ops s fid n, get_profiles (runTrace ops s) fid n = get_profiles s fid n) ∧
          (∀ ops s, get_summary (runTrace ops s) = get_summary s) := by
  have h1 : ∀ op s, (runOp op s).2 = s := by
    intro op s
    cases op <;> rfl
  have h2 : ∀ ops s, runTrace ops s = s := by
    intro ops
    induction ops with
    | nil => intro s; rfl
    | cons op t ih =>
      intro s
      show List.foldl _ _ (op :: t) = s
      rw [List.foldl_cons, h1]
      exact ih s
  exact ⟨h1, h2, fun ops s fid n => by rw [h2], fun ops s => by rw [h2]⟩

/-- C4: whenever rule 1 fires, the dispatcher replies with the number of
distinct non-null profile dates of the float (dates duplicated across
depth rows count once), as the payload of the "This float has N profiles."
message. -/
theorem countProfiles_counts_distinct_dates (s : Store) (fid : String) (q : List Char)
    (h : cond1 q = true) :
    dispatch s fid q = [BotReply.countProfiles (floatDates s fid).toFinset.card] := by
  unfold dispatch
  simp [h, countProfilesQ, List.card_toFinset]

/-- Witness for C4, on the spec's example: profile dates
{2021-01-01, 2021-01-01, 2021-02-01} (depth-duplicated) give the reply
"This float has 2 profiles.". -/
theorem countProfiles_counts_distinct_dates_witness :
    cond1 ("how many profiles?".toList) = true ∧
      dispatch exStore "f1" ("how many profiles?".toList) = [BotReply.countProfiles 2] :=
  ⟨by decide,
    (countProfiles_counts_distinct_dates exStore "f1" _ (by decide)).trans (by decide)⟩

/-- C9: `COUNT(DISTINCT profile_date)` ignores NULL, so on a float all of
whose rows have a NULL profile date, rule 1 replies
"This float has 0 profiles.". -/
theorem countProfiles_ignores_null (s : Store) (fid : String) (q : List Char)
    (hnull : ∀ r ∈ s, r.float_id = fid → r.profile_date = none)
    (h : cond1 q = true) :
    dispatch s fid q = [BotReply.countProfiles 0] := by
  have hfd : floatDates s fid = [] := by
    unfold floatDates
    rw [List.filterMap_eq_nil_iff]
    intro r hr
    have hm := List.mem_filter.mp hr
    exact hnull r hm.1 (by simpa using hm.2)
  unfold dispatch
  simp [h, countProfilesQ, hfd]

/-- Witness for C9: a store whose single float has only NULL profile dates
yields the reply payload 0. -/
theorem countProfiles_ignores_null_witness :
    (∀ r ∈ nullStore, r.float_id = "f1" → r.profile_date = none) ∧
      dispatch nullStore "f1" ("count profiles".toList) = [BotReply.countProfiles 0] :=
  ⟨by decide,
    countProfiles_ignores_null nullStore "f1" _ (by decide) (by decide)⟩

theorem lowerC_fix (c : Char)
    (h : c ∉ ['A', 'B', 'C', 'D', 'E', 'F', 'G', 'H', 'I', 'J', 'K', 'L', 'M',
      'N', 'O', 'P', 'Q', 'R', 'S', 'T', 'U', 'V', 'W', 'X', 'Y', 'Z']) :
    lowerC c = c := by
  unfold lowerC
  split <;> first | rfl | exact absurd (by decide) h

theorem lowerC_not_upper (c : Char) :
    lowerC c ∉ ['A', 'B', 'C', 'D', 'E', 'F', 'G', 'H', 'I', 'J', 'K', 'L', 'M',
      'N', 'O', 'P', 'Q', 'R', 'S', 'T', 'U', 'V', 'W', 'X', 'Y', 'Z'] := by
  unfold lowerC
  split <;> simp_all

theorem lowerC_lowerC (c : Char) : lowerC (lowerC c) = lowerC c :=
  lowerC_fix _ (lowerC_not_upper c)

theorem isSpaceC_lowerC (c : Char) : isSpaceC (lowerC c) = isSpaceC c := by
  unfold lowerC
  split <;> rfl

theorem dropWhile_map_lowerC (l : List Char) :
    (l.map lowerC).dropWhile isSpaceC = (l.dropWhile isSpaceC).map lowerC := by
  have hf : (isSpaceC ∘ lowerC) = isSpaceC := funext isSpaceC_lowerC
  rw [List.dropWhile_map, hf]

theorem trimL_map_lowerC (l : List Char) :
    trimL (l.map lowerC) = (trimL l).map lowerC := by
  unfold trimL
  rw [dropWhile_map_lowerC, ← List.map_reverse, dropWhile_map_lowerC, ← List.map_reverse]

theorem trimL_eq_rdropWhile (l : List Char) :
    trimL l = List.rdropWhile isSpaceC (l.dropWhile isSpaceC) := rfl

theorem dropWhile_trimL (l : List Char) :
    (trimL l).dropWhile isSpaceC = trimL l := by
  rcases h : trimL l with _ | ⟨a, t⟩
  · rfl
  · have hpre : trimL l <+: l.dropWhile isSpaceC := by
      rw [trimL_eq_rdropWhile]
      exact List.rdropWhile_prefix _ _
    rw [h] at hpre
    obtain ⟨t2, ht2⟩ := hpre
    have hw : l.dropWhile isSpaceC ≠ [] := by
      rw [← ht2]; simp
    have hnot : isSpaceC ((l.dropWhile isSpaceC).head hw) = false :=
      List.head_dropWhile_not _ _ _
    have hhead : (l.dropWhile isSpaceC).head hw = a := by
      simp [← ht2]
    rw [hhead] at hnot
    rw [List.dropWhile_cons_of_neg (by simp [hnot])]

theorem trimL_idem (l : List Char) : trimL (trimL l) = trimL l := by
  rw [trimL_eq_rdropWhile (trimL l), dropWhile_trimL, trimL_eq_rdropWhile l,
    List.rdropWhile_idempotent]

theorem map_lowerC_idem (l : List Char) :
    (l.map lowerC).map lowerC = l.map lowerC := by
  rw [List.map_map]
  exact List.map_congr_left (fun a _ => lowerC_lowerC a)

theorem normalize_idem (l : List Char) : normalize (normalize l) = normalize l := by
  unfold normalize
  rw [trimL_map_lowerC, trimL_idem, map_lowerC_idem]

/-- C8: the dispatcher's result depends only on the trimmed, case-folded
form of the input — dispatching a non-empty raw string and dispatching its
normalized form give the same replies, because normalization
(`strip` then `lower`) is idempotent; rule matching then operates by
substring containment on that normalized string (the `cond` predicates). -/
theorem dispatch_normalization_invariant (s : Store) (fid : String) (raw : List Char)
    (h : raw ≠ []) :
    dispatchRaw s fid raw = dispatchRaw s fid (normalize raw) := by
  unfold dispatchRaw
  rw [normalize_idem]

/-- Witness for C8 at the raw query " How many PROFILES? ". -/
theorem dispatch_normalization_invariant_witness :
    (" How many PROFILES? ".toList ≠ ([] : List Char)) ∧
      dispatchRaw [] "f1" (" How many PROFILES? ".toList) =
        dispatchRaw [] "f1" (normalize (" How many PROFILES? ".toList)) :=
  ⟨by decide, dispatch_normalization_invariant [] "f1" _ (by decide)⟩

theorem latestProfileQ_none (s : Store) (fid : String) :
    latestProfileQ s fid = none ↔ floatDates s fid = [] := by
  unfold latestProfileQ
  rw [List.head?_eq_none_iff]
  constructor
  · intro h
    have hperm := List.mergeSort_perm (floatDates s fid).dedup (fun a b => decide (b ≤ a))
    rw [h] at hperm
    exact (List.dedup_eq_nil _).mp hperm.nil_eq.symm
  · intro h
    simp [h]

theorem latestProfileQ_some (s : Store) (fid : String) (d : Int)
    (h : latestProfileQ s fid = some d) :
    d ∈ floatDates s fid ∧ ∀ x ∈ floatDates s fid, x ≤ d := by
  unfold latestProfileQ at h
  have hsorted : ((floatDates s fid).dedup.mergeSort (fun a b => decide (b ≤ a))).Pairwise
      (fun a b => decide (b ≤ a) = true) := by
    apply List.sorted_mergeSort
    · intro a b c h1 h2
      simp only [decide_eq_true_iff] at *
      omega
    · intro a b
      simpa [Bool.or_eq_true, decide_eq_true_iff] using Int.le_total b a
  obtain ⟨t, ht⟩ := List.head?_eq_some_iff.mp h
  constructor
  · have : d ∈ (floatDates s fid).dedup.mergeSort (fun a b => decide (b ≤ a)) := by
      rw [ht]; exact List.mem_cons_self _ _
    rw [List.mem_mergeSort, List.mem_dedup] at this
    exact this
  · intro x hx
    have hxs : x ∈ (floatDates s fid).dedup.mergeSort (fun a b => decide (b ≤ a)) := by
      rw [List.mem_mergeSort, List.mem_dedup]
      exact hx
    rw [ht] at hxs hsorted
    rcases List.mem_cons.mp hxs with rfl | hmem
    · exact le_refl x
    · simpa using List.rel_of_pairwise_cons hsorted hmem

/-- C5: when rule 2 fires, the dispatcher replies with the maximum among
the float's non-null profile dates when at least one exists, and with the
"No profile dates found." message (not an error) when the float has no
non-null profile dates. -/
theorem latestProfile_max_or_notfound (s : Store) (fid : String) (q : List Char)
    (h1 : cond1 q = false) (h2 : cond2 q = true) :
    (floatDates s fid = [] ∧ dispatch s fid q = [BotReply.noProfileDates]) ∨
      (∃ d, d ∈ floatDates s fid ∧ (∀ x ∈ floatDates s fid, x ≤ d) ∧
        dispatch s fid q = [BotReply.latestDate d]) := by
  have hd : dispatch s fid q = latestReply s fid := by
    unfold dispatch
    simp [h1, h2]
  rcases hq : latestProfileQ s fid with _ | d
  · left
    refine ⟨(latestProfileQ_none s fid).mp hq, ?_⟩
    rw [hd]
    unfold latestReply
    rw [hq]
  · right
    obtain ⟨hmem, hmax⟩ := latestProfileQ_some s fid d hq
    refine ⟨d, hmem, hmax, ?_⟩
    rw [hd]
    unfold latestReply
    rw [hq]

/-- Witness for C5 on the sample store (latest date 2021-02-01) and on a
float with no non-null dates ("not found", not an error). -/
theorem latestProfile_max_or_notfound_witness :
    cond1 ("latest profile?".toList) = false ∧
      cond2 ("latest profile?".toList) = true ∧
      ((floatDates exStore "f1" = [] ∧
          dispatch exStore "f1" ("latest profile?".toList) = [BotReply.noProfileDates]) ∨
        (∃ d, d ∈ floatDates exStore "f1" ∧ (∀ x ∈ floatDates exStore "f1", x ≤ d) ∧
          dispatch exStore "f1" ("latest profile?".toList) = [BotReply.latestDate d])) ∧
      ((floatDates nullStore "f1" = [] ∧
          dispatch nullStore "f1" ("latest profile?".toList) = [BotReply.noProfileDates]) ∨
        (∃ d, d ∈ floatDates nullStore "f1" ∧ (∀ x ∈ floatDates nullStore "f1", x ≤ d) ∧
          dispatch nullStore "f1" ("latest profile?".toList) = [BotReply.latestDate d])) :=
  ⟨by decide, by decide,
    latestProfile_max_or_notfound exStore "f1" _ (by decide) (by decide),
    latestProfile_max_or_notfound nullStore "f1" _ (by decide) (by decide)⟩

theorem keyLe_iff (a b : Option Int × Rat) :
    keyLe a b = true ↔ (oLt a.1 b.1 = true ∨ (a.1 = b.1 ∧ a.2 ≤ b.2)) := by
  simp [keyLe, Bool.or_eq_true, Bool.and_eq_true, decide_eq_true_iff]

theorem oLt_trans {a b c : Option Int} (h1 : oLt a b = true) (h2 : oLt b c = true) :
    oLt a c = true := by
  rcases a with _ | x <;> rcases b with _ | y <;> rcases c with _ | z <;>
    simp_all [oLt] <;> omega

theorem oLt_total (a b : Option Int) : a = b ∨ oLt a b = true ∨ oLt b a = true := by
  rcases a with _ | x <;> rcases b with _ | y <;> simp [oLt] <;> omega

theorem keyLe_trans (a b c : Option Int × Rat)
    (h1 : keyLe a b = true) (h2 : keyLe b c = true) : keyLe a c = true := by
  rw [keyLe_iff] at *
  rcases h1 with h1 | ⟨he1, hx1⟩ <;> rcases h2 with h2 | ⟨he2, hx2⟩
  · exact Or.inl (oLt_trans h1 h2)
  · exact Or.inl (he2 ▸ h1)
  · exact Or.inl (he1 ▸ h2)
  · exact Or.inr ⟨he1.trans he2, le_trans hx1 hx2⟩

theorem keyLe_total (a b : Option Int × Rat) :
    keyLe a b = true ∨ keyLe b a = true := by
  rcases oLt_total a.1 b.1 with he | h | h
  · rcases le_total a.2 b.2 with hx | hx
    · exact Or.inl ((keyLe_iff a b).mpr (Or.inr ⟨he, hx⟩))
    · exact Or.inr ((keyLe_iff b a).mpr (Or.inr ⟨he.symm, hx⟩))
  · exact Or.inl ((keyLe_iff a b).mpr (Or.inl h))
  · exact Or.inr ((keyLe_iff b a).mpr (Or.inl h))

theorem rowLe_trans (a b c : Measurement) (h1 : rowLe a b) (h2 : rowLe b c) :
    rowLe a c :=
  keyLe_trans _ _ _ h1 h2

theorem rowLe_total (a b : Measurement) : rowLe a b || rowLe b a := by
  rcases keyLe_total (a.profile_date, a.depth) (b.profile_date, b.depth) with h | h <;>
    simp [rowLe, h]

/-- C6: `get_profiles` returns only rows of the requested float, sorted
non-decreasing by `(profile_date, depth)` (NULL dates first, as SQLite
orders them), with at most `max_rows` rows (default 5000); an identifier
matching no stored row yields the empty sequence, not an error. -/
theorem get_profiles_spec (s : Store) (fid : String) (n : Nat) :
    (∀ x ∈ get_profiles s fid n, ∃ r, r ∈ s ∧ r.float_id = fid ∧ projRow r = x) ∧
      (get_profiles s fid n).Pairwise (fun a b => projLe a b = true) ∧
      (get_profiles s fid n).length ≤ n ∧
      ((∀ r ∈ s, r.float_id ≠ fid) → get_profiles s fid n = []) ∧
      get_profilesDefault s fid = get_profiles s fid 5000 := by
  refine ⟨?_, ?_, ?_, ?_, rfl⟩
  · intro x hx
    rw [get_profiles, List.mem_map] at hx
    obtain ⟨r, hr, rfl⟩ := hx
    have hr2 := List.mem_mergeSort.mp (List.mem_of_mem_take hr)
    have hr3 := List.mem_filter.mp hr2
    exact ⟨r, hr3.1, by simpa using hr3.2, rfl⟩
  · rw [get_profiles]
    apply List.pairwise_map.mpr
    apply List.Pairwise.sublist (List.take_sublist _ _)
    exact List.sorted_mergeSort rowLe_trans rowLe_total _
  · rw [get_profiles, List.length_map]
    simpa [List.length_take] using Nat.min_le_left n _
  · intro h
    have hF : s.filter (fun r => r.float_id == fid) = [] :=
      List.filter_eq_nil_iff.mpr (fun r hr => by simp [h r hr])
    rw [get_profiles, hF]
    simp

/-- Witness for C6: an unknown float identifier yields the empty sequence,
and the row cap is respected on a concrete store. -/
theorem get_profiles_spec_witness :
    (∀ r ∈ exStore, r.float_id ≠ "zzz") ∧
      get_profiles exStore "zzz" 5000 = [] ∧
      (get_profiles exStore "f1" 2).length ≤ 2 :=
  ⟨by decide, (get_profiles_spec exStore "zzz" 5000).2.2.2.1 (by decide),
    (get_profiles_spec exStore "f1" 2).2.2.1⟩

theorem stripLit_append : ∀ (lit l r : List Char), stripLit lit l = some r → l = lit ++ r := by
  intro lit
  induction lit with
  | nil =>
    intro l r h
    simpa [stripLit] using h
  | cons p ps ih =>
    intro l r h
    cases l with
    | nil => simp [stripLit] at h
    | cons c cs =>
      rw [stripLit] at h
      by_cases hc : c = p
      · rw [if_pos hc] at h
        rw [hc, List.cons_append]
        exact congrArg _ (ih cs r h)
      · rw [if_neg hc] at h
        exact absurd h (by simp)

theorem numShape_of_digits (ds : List Char) (hne : ds ≠ [])
    (hdig : ∀ x ∈ ds, isDigitC x) : numShape ds = true := by
  cases ds with
  | nil => exact absurd rfl hne
  | cons d t =>
    have hdrop : (d :: t).dropWhile isDigitC = [] :=
      List.dropWhile_eq_nil_iff.mpr hdig
    unfold numShape
    rw [hdrop]
    simp [hdig d (List.mem_cons_self d t)]

theorem numShape_digits_dot (ds fs : List Char) (hne : ds ≠ [])
    (hdig : ∀ x ∈ ds, isDigitC x) (hfs : ∀ x ∈ fs, isDigitC x) :
    numShape (ds ++ '.' :: fs) = true := by
  cases ds with
  | nil => exact absurd rfl hne
  | cons d t =>
    have hdrop : (d :: (t ++ '.' :: fs)).dropWhile isDigitC = '.' :: fs := by
      rw [← List.cons_append, List.dropWhile_append_of_pos hdig]
      exact List.dropWhile_cons_of_neg (by decide)
    unfold numShape
    rw [List.cons_append, hdrop]
    simp only [Bool.and_eq_true, List.all_eq_true]
    exact ⟨hdig d (List.mem_cons_self d t), hfs⟩

theorem matchNum_shape (l v : List Char) (h : matchNum l = some v) :
    numShape v = true := by
  unfold matchNum at h
  by_cases he : (l.takeWhile isDigitC).isEmpty
  · simp [he] at h
  · rw [if_neg he] at h
    have hne : l.takeWhile isDigitC ≠ [] := by
      simpa [List.isEmpty_iff] using he
    have hdig : ∀ x ∈ l.takeWhile isDigitC, isDigitC x :=
      fun x hx => List.mem_takeWhile_imp hx
    split at h
    · obtain rfl : _ = v := Option.some.inj h
      exact numShape_digits_dot _ _ hne hdig
        (fun x hx => List.mem_takeWhile_imp hx)
    · obtain rfl : _ = v := Option.some.inj h
      exact numShape_of_digits _ hne hdig

theorem matchOpNum_some (col rest c o v : List Char)
    (h : matchOpNum col rest = some (c, o, v)) :
    c = col ∧ (o = ['<'] ∨ o = ['>'] ∨ o = ['<', '='] ∨ o = ['>', '=']) ∧
      numShape v = true := by
  unfold matchOpNum at h
  split at h
  · exact absurd h (by simp)
  · rename_i c1 r2 heq
    by_cases hc : c1 = '<' || c1 = '>'
    · rw [if_pos hc] at h
      have hc2 : c1 = '<' ∨ c1 = '>' := by
        simpa [Bool.or_eq_true] using hc
      split at h
      · rename_i r2b heq2
        split at h
        · rename_i v2 hv2
          obtain ⟨rfl, rfl, rfl⟩ : col = c ∧ [c1, '='] = o ∧ v2 = v := by
            simpa using h
          refine ⟨rfl, ?_, matchNum_shape _ _ hv2⟩
          rcases hc2 with rfl | rfl
          · exact Or.inr (Or.inr (Or.inl rfl))
          · exact Or.inr (Or.inr (Or.inr rfl))
        · exact absurd h (by simp)
      · split at h
        · rename_i v2 hv2
          obtain ⟨rfl, rfl, rfl⟩ : col = c ∧ [c1] = o ∧ v2 = v := by
            simpa using h
          refine ⟨rfl, ?_, matchNum_shape _ _ hv2⟩
          rcases hc2 with rfl | rfl
          · exact Or.inl rfl
          · exact Or.inr (Or.inl rfl)
        · exact absurd h (by simp)
    · rw [if_neg hc] at h
      exact absurd h (by simp)

theorem matchAt_some (l c o v : List Char) (h : matchAt l = some (c, o, v)) :
    (c = tempLit ∨ c = salLit) ∧ c <+: l ∧
      (o = ['<'] ∨ o = ['>'] ∨ o = ['<', '='] ∨ o = ['>', '=']) ∧
      numShape v = true := by
  unfold matchAt at h
  split at h
  · rename_i rest hrest
    obtain ⟨rfl, ho, hv⟩ := matchOpNum_some tempLit rest c o v h
    exact ⟨Or.inl rfl, ⟨rest, (stripLit_append _ _ _ hrest).symm⟩, ho, hv⟩
  · split at h
    · rename_i rest hrest
      obtain ⟨rfl, ho, hv⟩ := matchOpNum_some salLit rest c o v h
      exact ⟨Or.inr rfl, ⟨rest, (stripLit_append _ _ _ hrest).symm⟩, ho, hv⟩
    · exact absurd h (by simp)

theorem reSearch_some : ∀ (q c o v : List Char), reSearch q = some (c, o, v) →
    (c = tempLit ∨ c = salLit) ∧ c <:+: q ∧
      (o = ['<'] ∨ o = ['>'] ∨ o = ['<', '='] ∨ o = ['>', '=']) ∧
      numShape v = true := by
  intro q
  induction q with
  | nil => intro c o v h; simp [reSearch] at h
  | cons a as ih =>
    intro c o v h
    rw [reSearch] at h
    split at h
    · rename_i m hm
      obtain rfl : m = (c, o, v) := Option.some.inj h
      obtain ⟨hcol, hpre, ho, hv⟩ := matchAt_some (a :: as) c o v hm
      exact ⟨hcol, hpre.isInfix, ho, hv⟩
    · obtain ⟨hcol, hinf, ho, hv⟩ := ih c o v h
      exact ⟨hcol, List.infix_cons hinf, ho, hv⟩

/-- C1 (amended): the if/elif chain realizes the ordered rule table with
first-match-wins — its result is the handler of the earliest rule whose
keyword condition the normalized string satisfies; a string containing an
"mld"/"mixed layer" keyword is never answered by FilteredRows (nor by the
rule-6 usage hint), and when no earlier rule (1-4) matches it dispatches
to MldSummary. -/
theorem dispatch_first_match_wins (s : Store) (fid : String) (q : List Char) :
    dispatch s fid q = specRunRule s fid q (specRuleIdx q) ∧
      (cond5 q = true →
        ∀ c o v rows, BotReply.filteredRows c o v rows ∉ dispatch s fid q) ∧
      (cond5 q = true → cond1 q = false → cond2 q = false → cond3 q = false →
        cond4 q = false → dispatch s fid q = [BotReply.mldSummary]) := by
  refine ⟨?_, ?_, ?_⟩
  · unfold dispatch specRuleIdx
    cases h1 : cond1 q <;> cases h2 : cond2 q <;> cases h3 : cond3 q <;>
      cases h4 : cond4 q <;> cases h5 : cond5 q <;> cases h6 : cond6 q <;>
      simp [h1, h2, h3, h4, h5, h6, List.findIdx_cons, specRunRule]
  · intro h5 c o v rows hmem
    unfold dispatch at hmem
    rw [h5] at hmem
    split at hmem
    · simp at hmem
    · split at hmem
      · unfold latestReply at hmem
        rcases hq : latestProfileQ s fid with _ | d <;> rw [hq] at hmem <;> simp at hmem
      · split at hmem
        · simp at hmem
        · split at hmem <;> simp at hmem
  · intro h5 h1 h2 h3 h4
    unfold dispatch
    simp [h1, h2, h3, h4, h5]

/-- Witness for C1: "mld where salinity > 36.5" (no earlier rule matches)
dispatches to MldSummary and its reply list contains no FilteredRows. -/
theorem dispatch_first_match_wins_witness :
    cond5 ("mld where salinity > 36.5".toList) = true ∧
      dispatch [] "f1" ("mld where salinity > 36.5".toList) = [BotReply.mldSummary] ∧
      BotReply.filteredRows salLit ['>'] "36.5".toList [] ∉
        dispatch [] "f1" ("mld where salinity > 36.5".toList) :=
  ⟨by decide,
    (dispatch_first_match_wins [] "f1" _).2.2 (by decide) (by decide) (by decide)
      (by decide) (by decide),
    (dispatch_first_match_wins [] "f1" _).2.1 (by decide) salLit ['>'] "36.5".toList []⟩

/-- Counterexample to C1 as stated: "count profiles and mld where salinity
> 36.5" contains an "mld" keyword and a matching "where salinity > X"
comparison, yet dispatches to CountProfiles (rule 1), not MldSummary. -/
theorem dispatch_first_match_wins_counterexample :
    cond5 ("count profiles and mld where salinity > 36.5".toList) = true ∧
      hasSub "where" ("count profiles and mld where salinity > 36.5".toList) = true ∧
      reSearch ("count profiles and mld where salinity > 36.5".toList) =
        some (salLit, ['>'], "36.5".toList) ∧
      dispatch [] "f1" ("count profiles and mld where salinity > 36.5".toList) =
        [BotReply.countProfiles 0] ∧
      dispatch [] "f1" ("count profiles and mld where salinity > 36.5".toList) ≠
        [BotReply.mldSummary] := by
  refine ⟨by decide, by decide, by decide, by decide, by decide⟩

/-- C2 (amended): when rule 6 is reached, the (column, operator, threshold)
triple is extracted by `re.search` of the code's actual pattern
`(temperature|salinity)\s*([<>]=?)\s*([0-9]+\.?[0-9]*)` — whose threshold
group is unsigned, so a negative threshold such as "where temperature > -5"
does not match — and when the pattern does not match, the usage-hint
message is returned and no query is executed. -/
theorem rule6_extraction (s : Store) (fid : String) (q : List Char)
    (h1 : cond1 q = false) (h2 : cond2 q = false) (h3 : cond3 q = false)
    (h4 : cond4 q = false) (h5 : cond5 q = false) (h6 : cond6 q = true) :
    (∀ c o v, reSearch q = some (c, o, v) →
        dispatch s fid q = [BotReply.filteredRows c o v (filteredQ s fid c o v)] ∧
          numShape v = true) ∧
      (reSearch q = none → dispatch s fid q = [BotReply.usageHint]) := by
  have hd : dispatch s fid q = rule6Reply s fid q := by
    unfold dispatch
    simp [h1, h2, h3, h4, h5, h6]
  constructor
  · intro c o v hr
    constructor
    · rw [hd]
      unfold rule6Reply
      rw [hr]
    · exact (reSearch_some q c o v hr).2.2.2
  · intro hr
    rw [hd]
    unfold rule6Reply
    rw [hr]

/-- Witness for C2 on "where temperature > 25.5": the triple
(temperature, >, 25.5) is extracted and the filtered query runs. -/
theorem rule6_extraction_witness :
    cond6 ("where temperature > 25.5".toList) = true ∧
      dispatch [] "f1" ("where temperature > 25.5".toList) =
        [BotReply.filteredRows tempLit ['>'] "25.5".toList []] :=
  ⟨by decide,
    ((rule6_extraction [] "f1" _ (by decide) (by decide) (by decide) (by decide)
          (by decide) (by decide)).1 tempLit ['>'] "25.5".toList (by decide)).1.trans
      (by simp [filteredQ])⟩

/-- Counterexample to C2 as stated: the code's pattern has no `-?`, so the
negative threshold in "where temperature > -5" is NOT matched — rule 6 is
reached but returns the usage-hint message instead of executing a query. -/
theorem rule6_negative_threshold_counterexample :
    cond6 ("where temperature > -5".toList) = true ∧
      reSearch ("where temperature > -5".toList) = none ∧
      dispatchRaw [] "f1" ("where temperature > -5".toList) = [BotReply.usageHint] := by
  refine ⟨by decide, by decide, by decide⟩

/-- C3: any FilteredRows reply the dispatcher ever emits carries a column
from the fixed whitelist {temperature, salinity} and an operator from
{<, <=, >, >=} (the only text interpolated into the SQL); a rule-6 query
whose comparison names any other column (no occurrence of "temperature"
or "salinity") executes no query and gets the usage-hint message. -/
theorem filteredRows_whitelist (s : Store) (fid : String) (q c o v : List Char)
    (rows : List ProfileRow) :
    (BotReply.filteredRows c o v rows ∈ dispatch s fid q →
        (c = tempLit ∨ c = salLit) ∧
          (o = ['<'] ∨ o = ['>'] ∨ o = ['<', '='] ∨ o = ['>', '='])) ∧
      (¬(tempLit <:+: q) → ¬(salLit <:+: q) → cond1 q = false → cond2 q = false →
        cond3 q = false → cond4 q = false → cond5 q = false → cond6 q = true →
        dispatch s fid q = [BotReply.usageHint]) := by
  constructor
  · intro hmem
    unfold dispatch at hmem
    split at hmem
    · simp at hmem
    · split at hmem
      · unfold latestReply at hmem
        rcases hq : latestProfileQ s fid with _ | d <;> rw [hq] at hmem <;> simp at hmem
      · split at hmem
        · simp at hmem
        · split at hmem
          · simp at hmem
          · split at hmem
            · simp at hmem
            · split at hmem
              · unfold rule6Reply at hmem
                rcases hr : reSearch q with _ | ⟨c2, o2, v2⟩ <;> rw [hr] at hmem
                · simp at hmem
                · rw [List.mem_singleton] at hmem
                  injection hmem with e1 e2 e3 e4
                  subst e1
                  subst e2
                  subst e3
                  obtain ⟨hcol, _, ho, _⟩ := reSearch_some q c o v hr
                  exact ⟨hcol, ho⟩
              · simp at hmem
  · intro ht hs h1 h2 h3 h4 h5 h6
    have hr : reSearch q = none := by
      rcases hrq : reSearch q with _ | ⟨⟨c2, o2, v2⟩⟩
      · rfl
      · obtain ⟨hcol, hinf, _, _⟩ := reSearch_some q c2 o2 v2 hrq
        rcases hcol with rfl | rfl
        · exact absurd hinf ht
        · exact absurd hinf hs
    unfold dispatch
    simp [h1, h2, h3, h4, h5, h6]
    unfold rule6Reply
    rw [hr]

/-- Witness for C3 on "where foo > 5": an unsupported column falls through
to the usage-hint message, and no FilteredRows reply is produced. -/
theorem filteredRows_whitelist_witness :
    (¬(tempLit <:+: "where foo > 5".toList)) ∧
      dispatch [] "f1" ("where foo > 5".toList) = [BotReply.usageHint] :=
  ⟨by decide,
    (filteredRows_whitelist [] "f1" ("where foo > 5".toList) [] [] [] []).2
      (by decide) (by decide) (by decide) (by decide) (by decide) (by decide)
      (by decide) (by decide)⟩

end Argo
